import Mathlib

/-!
Verification development for the breast-cancer MLOps repository
(`model/train.py`, `api/fastapi_app/main.py`, `api/flask_app/app.py`).

Floating-point request values are embedded as an inductive over exact
rationals plus the non-finite IEEE values; floats stored in the artifact
bundle are embedded as rationals.  Stateful pieces (Prometheus metrics,
files on disk) are explicit state records; Python exceptions raised by
library calls during scaling / inference / dumping are injected fault
parameters.
-/

namespace BC

/-- A floating-point value as the service sees it: an exact finite value
(embedded as a rational) or one of the non-finite IEEE values. -/
inductive FloatVal where
  | finite (q : ℚ)
  | nan
  | inf
  | ninf
deriving DecidableEq, Repr

/-- Whether a float is finite. -/
def FloatVal.isFinite : FloatVal → Bool
  | .finite _ => true
  | _ => false

/-- One entry of the raw JSON `features` array before coercion: either a
numeric value (Python's json module also parses NaN / Infinity / -Infinity
into non-finite floats) or a non-numeric token such as a string or null. -/
inductive RawFeature where
  | num (v : FloatVal)
  | nonNum
deriving DecidableEq, Repr

/-- Whether a raw entry is a finite numeric value. -/
def RawFeature.isFiniteNum : RawFeature → Bool
  | .num v => v.isFinite
  | .nonNum => false

/-- Parameters of the persisted scaler artifact as the serving processes use
it: per-feature mean and scale (numpy arrays of floats, embedded as
rational lists). -/
structure ScalerParams where
  mean : List ℚ
  scale : List ℚ
deriving DecidableEq, Repr

/-- Elementwise scaling (x - m) / s as numpy computes it, with non-finite
values propagated (NaN stays NaN; infinities follow the sign of the scale). -/
def scaleVal (x : FloatVal) (m s : ℚ) : FloatVal :=
  match x with
  | .finite q => .finite ((q - m) / s)
  | .nan => .nan
  | .inf => if 0 < s then .inf else if s < 0 then .ninf else .nan
  | .ninf => if 0 < s then .ninf else if s < 0 then .inf else .nan

/-- `scaler.transform` applied to one feature vector. -/
def ScalerParams.transform (p : ScalerParams) (xs : List FloatVal) : List FloatVal :=
  List.zipWith (fun ms x => scaleVal x ms.1 ms.2) (p.mean.zip p.scale) xs

/-- Modelled from the spec: the trained SVC artifact (`model.joblib`) is not
under src/ — only its callers are.  Per the spec's data model the classifier
is an immutable decision function "producing a binary label and a calibrated
probability"; `predict` yields the label and `predict_proba[0, 1]` the
benign-class probability in [0,1]. -/
structure ClassifierModel where
  predictFn : List FloatVal → ℕ
  predictProbaFn : List FloatVal → ℚ
  predict_binary : ∀ x, predictFn x = 0 ∨ predictFn x = 1
  proba_mem : ∀ x, 0 ≤ predictProbaFn x ∧ predictProbaFn x ≤ 1

/-- The artifacts a serving process holds after a successful load
(`model` and `scaler` module-level globals). -/
structure ServiceCtx where
  scaler : ScalerParams
  clf : ClassifierModel

/-- Python's round(p, 4) on the benign probability, embedded as
round-to-nearest on rationals.  (Python rounds exact ties to even; no claim
here depends on the tie-break, only on range and on rounding happening.) -/
def round4 (q : ℚ) : ℚ := (round (q * 10000) : ℚ) / 10000

/-- Prometheus metric state touched by the service: the
`app_requests_total{endpoint,method}` counter, the
`app_predictions_total{prediction}` counter, and the number of observations
recorded by the `app_prediction_latency_seconds` histogram. -/
structure Metrics where
  app_requests_total : String → String → ℕ
  app_predictions_total : String → ℕ
  latency_observations : ℕ

/-- Fresh metric state of a new process: all counters at zero. -/
def initMetrics : Metrics :=
  { app_requests_total := fun _ _ => 0
    app_predictions_total := fun _ => 0
    latency_observations := 0 }

/-- REQUEST_COUNT.labels(endpoint, method).inc() -/
def Metrics.incRequest (m : Metrics) (e mth : String) : Metrics :=
  { m with
    app_requests_total := fun e2 m2 =>
      if e2 = e ∧ m2 = mth then m.app_requests_total e2 m2 + 1
      else m.app_requests_total e2 m2 }

/-- PREDICTION_COUNTER.labels(prediction).inc() -/
def Metrics.incPrediction (m : Metrics) (lab : String) : Metrics :=
  { m with
    app_predictions_total := fun l2 =>
      if l2 = lab then m.app_predictions_total l2 + 1
      else m.app_predictions_total l2 }

/-- PREDICTION_LATENCY observes one duration (only the observation count is
modelled; the observed value is real time, outside the embedding). -/
def Metrics.observeLatency (m : Metrics) : Metrics :=
  { m with latency_observations := m.latency_observations + 1 }

/-- The HTTP response of the predict route: a 200 JSON body, a 422
validation error, or a 500 HTTPException detail. -/
inductive Response where
  | ok (prediction : ℕ) (diagnosis : String) (probability_benign : ℚ)
  | clientError (detail : String)
  | serverError (detail : String)
deriving DecidableEq, Repr

/-- An injected Python exception standing for a failure raised by a library
call in the handler body: during `scaler.transform`, or inside the timed
block during `model.predict` / `model.predict_proba`. -/
inductive Fault where
  | scaling
  | inference
deriving DecidableEq, Repr

/-- What one request leaves behind: the metric state, the response, and
whether the model was invoked. -/
structure HandlerResult where
  metrics : Metrics
  response : Response
  modelCalled : Bool

/-- pydantic coercion of one raw JSON entry to float: non-numeric entries
are a validation error; numeric entries (finite or not) pass through. -/
def coerceFloat : RawFeature → Except String FloatVal
  | .num v => .ok v
  | .nonNum => .error "value is not a valid float"

/-- Coerce the whole features array, failing on the first non-numeric entry. -/
def coerceFeatures : List RawFeature → Except String (List FloatVal)
  | [] => .ok []
  | r :: rs =>
    match coerceFloat r with
    | .error e => .error e
    | .ok v =>
      match coerceFeatures rs with
      | .error e => .error e
      | .ok vs => .ok (v :: vs)

/-- PredictionRequest.validate_features: exactly 30 features are required.
No finiteness check is performed. -/
def validate_features (v : List FloatVal) : Except String (List FloatVal) :=
  if v.length ≠ 30 then .error "Exactly 30 features are required" else .ok v

/-- Request-body validation as the framework runs it before the handler:
coerce entries to float, then the model validator's length check. -/
def parseRequest (raw : List RawFeature) : Except String (List FloatVal) :=
  match coerceFeatures raw with
  | .error e => .error e
  | .ok vs => validate_features vs

/-- The body of `async def predict` from main.py, already given a validated
features list.  It increments the request counter first; on a scaling fault
the timed block is never entered; on an inference fault the `with` block's
Timer still observes on exit (Python calls the context manager's exit on
exception, and the Timer records unconditionally); on success the latency is
observed, the outcome counter is incremented by diagnosis, and the rounded
benign probability is returned. -/
def predictBody (ctx : ServiceCtx) (fault : Option Fault) (features : List FloatVal)
    (m : Metrics) : HandlerResult :=
  let m1 := m.incRequest "/predict" "POST"
  if fault = some Fault.scaling then
    { metrics := m1, response := .serverError "Prediction error: scaling failed"
      modelCalled := false }
  else
    let features_scaled := ctx.scaler.transform features
    if fault = some Fault.inference then
      { metrics := m1.observeLatency
        response := .serverError "Prediction error: inference failed"
        modelCalled := true }
    else
      let prediction := ctx.clf.predictFn features_scaled
      let probability := ctx.clf.predictProbaFn features_scaled
      let m2 := m1.observeLatency
      let diag := if prediction = 0 then "malignant" else "benign"
      let m3 := m2.incPrediction diag
      { metrics := m3
        response := .ok prediction diag (round4 probability)
        modelCalled := true }

/-- The full route: FastAPI validates the request body before invoking the
handler, so on a validation failure the handler body (and its request-counter
increment) never runs and a 422 is returned. -/
def handlePredict (ctx : ServiceCtx) (fault : Option Fault) (raw : List RawFeature)
    (m : Metrics) : HandlerResult :=
  match parseRequest raw with
  | .error e => { metrics := m, response := .clientError e, modelCalled := false }
  | .ok features => predictBody ctx fault features m

/-- The result dict rendered by the Flask front-end (app.py `index`, POST
branch, success path): raw label, capitalized diagnosis, unrounded benign
probability. -/
structure FlaskResult where
  prediction : ℕ
  diagnosis : String
  probability_benign : ℚ
deriving DecidableEq, Repr

/-- The scale-and-predict part of the Flask POST handler on an
already-collected 30-value feature list. -/
def flaskPredict (ctx : ServiceCtx) (features : List FloatVal) : FlaskResult :=
  let features_scaled := ctx.scaler.transform features
  let prediction := ctx.clf.predictFn features_scaled
  let probability := ctx.clf.predictProbaFn features_scaled
  { prediction := prediction
    diagnosis := if prediction = 0 then "Malignant" else "Benign"
    probability_benign := probability }

/-- A raw request is a list of exactly 30 finite numeric values. -/
def isValid30 (raw : List RawFeature) : Bool :=
  raw.length == 30 && raw.all RawFeature.isFiniteNum

/-! ## Artifact loading at startup (main.py module level) -/

/-- What joblib.load finds for one artifact file: the deserialized object,
a missing file, or a file that fails deserialization. -/
inductive LoadResult (α : Type) where
  | ok (a : α)
  | missing
  | corrupt

/-- Whether the artifact file is absent or unreadable. -/
def LoadResult.isBad {α : Type} : LoadResult α → Bool
  | .ok _ => false
  | .missing => true
  | .corrupt => true

/-- The model directory contents the serving process sees at startup. -/
structure ArtifactDisk where
  modelFile : LoadResult ClassifierModel
  scalerFile : LoadResult ScalerParams
  featuresFile : LoadResult (List String)

/-- joblib.load on one file, raising (as an Except error) when the file is
missing or fails to deserialize. -/
def joblibLoad {α : Type} (f : LoadResult α) (name : String) : Except String α :=
  match f with
  | .ok a => .ok a
  | .missing => .error (name ++ ": No such file or directory")
  | .corrupt => .error (name ++ ": could not deserialize")

/-- A process that finished the module-level load: artifacts plus the
feature-name list, ready to serve. -/
structure LoadedService where
  ctx : ServiceCtx
  feature_names : List String

/-- The module-level try/except of main.py: load model, scaler and feature
names in sequence; any exception is reported with a descriptive message and
re-raised, so the process never finishes startup. -/
def startService (d : ArtifactDisk) : Except String LoadedService :=
  match joblibLoad d.modelFile "model.joblib" with
  | .error e => .error ("Error loading artifacts: " ++ e)
  | .ok model =>
    match joblibLoad d.scalerFile "scaler.joblib" with
    | .error e => .error ("Error loading artifacts: " ++ e)
    | .ok scaler =>
      match joblibLoad d.featuresFile "feature_names.joblib" with
      | .error e => .error ("Error loading artifacts: " ++ e)
      | .ok feature_names =>
        .ok { ctx := { scaler := scaler, clf := model }, feature_names := feature_names }

/-! ## Artifact saving by the training pipeline (train.py) -/

/-- The three artifact files on disk, with contents abstracted to tokens. -/
structure SavedBundle where
  modelBytes : ℕ
  scalerBytes : ℕ
  featureBytes : ℕ
deriving DecidableEq, Repr

/-- Whether each of the three sequential joblib.dump calls succeeds; a dump
that fails raises a Python exception. -/
structure DumpFaults where
  modelOk : Bool
  scalerOk : Bool
  featuresOk : Bool
deriving DecidableEq, Repr

/-- The three sequential joblib.dump calls of train.py over a disk state.
A failing dump raises; train.py catches nothing, so the exception propagates
and the run reports failure (second component true) with the writes made so
far left on disk. -/
def saveArtifacts (f : DumpFaults) (bundle d : SavedBundle) : SavedBundle × Bool :=
  if !f.modelOk then (d, true)
  else
    let d1 := { d with modelBytes := bundle.modelBytes }
    if !f.scalerOk then (d1, true)
    else
      let d2 := { d1 with scalerBytes := bundle.scalerBytes }
      if !f.featuresOk then (d2, true)
      else ({ d2 with featureBytes := bundle.featureBytes }, false)

/-! ## Training pipeline (train.py) -/

/-- One dataset sample: its 30 feature values and its binary label. -/
def Sample : Type := List ℚ × ℕ

/-- The samples of one class. -/
def rowsOfClass (c : ℕ) (rows : List Sample) : List Sample :=
  rows.filter (fun r => r.2 == c)

/-- Number of samples of one class. -/
def countClass (c : ℕ) (rows : List Sample) : ℕ :=
  (rowsOfClass c rows).length

/-- Modelled from the spec: sklearn's train_test_split with stratify=y is
not under src/.  Per the spec it splits with a fixed proportion and a fixed
random seed, "stratified by label so class balance is preserved in both
partitions": per class, a test_size fraction (rounded up) of that class's
samples goes to the test partition and the rest to the train partition.
The fixed seed picks one deterministic selection; it is modelled as taking
the leading samples of each class as test. -/
def splitClasses (test_size : ℚ) (rows : List Sample) :
    List ℕ → List Sample × List Sample
  | [] => ([], [])
  | c :: cs =>
    let rc := rowsOfClass c rows
    let nTest := ⌈test_size * rc.length⌉₊
    let rest := splitClasses test_size rows cs
    (rc.drop nTest ++ rest.1, rc.take nTest ++ rest.2)

/-- Modelled from the spec: the stratified split over the dataset's classes
(train partition first, test partition second). -/
def train_test_split (test_size : ℚ) (rows : List Sample) :
    List Sample × List Sample :=
  splitClasses test_size rows ((rows.map Prod.snd).dedup)

/-- Mean of the j-th feature column. -/
def colMean (xs : List (List ℚ)) (j : ℕ) : ℚ :=
  (xs.map (fun r => r.getD j 0)).sum / xs.length

/-- Population variance of the j-th feature column (sklearn's StandardScaler
uses the biased estimator; its stored scale is the square root of this, so
the variance determines the transform). -/
def colVar (xs : List (List ℚ)) (j : ℕ) : ℚ :=
  (xs.map (fun r => (r.getD j 0 - colMean xs j) ^ 2)).sum / xs.length

/-- Modelled from the spec: StandardScaler.fit — the per-feature mean and
standard deviation (here: variance, which determines it) of the fitted data. -/
def fitScalerStats (nFeatures : ℕ) (xs : List (List ℚ)) : List ℚ × List ℚ :=
  ((List.range nFeatures).map (colMean xs), (List.range nFeatures).map (colVar xs))

/-- The artifact bundle produced by one training run, as far as the claims
reach: the fitted scaler statistics and the feature-name list.  (The SVC fit
itself is owned by the ML library and outside the claims.) -/
structure TrainedArtifacts where
  scalerMean : List ℚ
  scalerVar : List ℚ
  feature_names : List String
deriving DecidableEq, Repr

/-- train.py's pipeline on a dataset: split with test_size=0.2 (and the
fixed seed and stratify=y folded into train_test_split), then fit the scaler
on the train partition only, then bundle the artifacts. -/
def trainPipeline (rows : List Sample) (names : List String) : TrainedArtifacts :=
  let split := train_test_split (1 / 5) rows
  let X_train := split.1.map Prod.fst
  let stats := fitScalerStats 30 X_train
  { scalerMean := stats.1, scalerVar := stats.2, feature_names := names }

/-! ## Concrete instances used by witnesses and counterexamples -/

/-- A concrete loaded scaler: identity parameters. -/
def scaler0 : ScalerParams :=
  { mean := List.replicate 30 0, scale := List.replicate 30 1 }

/-- A concrete classifier artifact that always answers benign with
probability one half. -/
def benignModel : ClassifierModel :=
  { predictFn := fun _ => 1
    predictProbaFn := fun _ => 1 / 2
    predict_binary := fun _ => Or.inr rfl
    proba_mem := fun _ => ⟨by norm_num, by norm_num⟩ }

/-- A concrete classifier artifact that always answers malignant with benign
probability one third. -/
def malignantModel : ClassifierModel :=
  { predictFn := fun _ => 0
    predictProbaFn := fun _ => 1 / 3
    predict_binary := fun _ => Or.inl rfl
    proba_mem := fun _ => ⟨by norm_num, by norm_num⟩ }

/-- Service context holding the benign-answering artifacts. -/
def ctx0 : ServiceCtx := { scaler := scaler0, clf := benignModel }

/-- Service context holding the malignant-answering artifacts. -/
def ctxMal : ServiceCtx := { scaler := scaler0, clf := malignantModel }

/-- A valid raw request: 30 finite zeros. -/
def raw30 : List RawFeature := List.replicate 30 (.num (.finite 0))

/-- The same request after validation. -/
def feats30 : List FloatVal := List.replicate 30 (.finite 0)

/-- A raw request with only 29 values. -/
def raw29 : List RawFeature := List.replicate 29 (.num (.finite 0))

/-- A raw request of 30 numeric values one of which is NaN. -/
def rawNaN : List RawFeature := .num .nan :: List.replicate 29 (.num (.finite 0))

/-- A disk whose model artifact file is missing. -/
def diskMissingModel : ArtifactDisk :=
  { modelFile := .missing, scalerFile := .ok scaler0
    featuresFile := .ok ["mean radius"] }

/-- A loaded scaler whose per-feature mean is 1 (scale 1), so scaling is a
shift — which composed with itself is a different shift. -/
def scalerShift : ScalerParams :=
  { mean := List.replicate 30 1, scale := List.replicate 30 1 }

/-- A sequence of predict calls: each call's metric state feeds the next. -/
def runPredicts (ctx : ServiceCtx) (reqs : List (List RawFeature)) (m : Metrics) : Metrics :=
  match reqs with
  | [] => m
  | r :: rs => runPredicts ctx rs (handlePredict ctx none r m).metrics

/-- A one-sample dataset of class 0. -/
def rowsA : List Sample := [([3], 0)]

/-- Another one-sample dataset of class 0 with a different sample. -/
def rowsB : List Sample := [([7], 0)]

/-! ## Helper lemmas -/

/-- Coercion never changes the number of features. -/
theorem coerce_length : ∀ {raw : List RawFeature} {vs : List FloatVal},
    coerceFeatures raw = .ok vs → vs.length = raw.length := by
  intro raw
  induction raw with
  | nil => intro vs h; simp [coerceFeatures] at h; simp [← h]
  | cons r rs ih =>
    intro vs h
    cases r with
    | nonNum => simp [coerceFeatures, coerceFloat] at h
    | num v =>
      simp only [coerceFeatures, coerceFloat] at h
      cases hc : coerceFeatures rs with
      | error e => rw [hc] at h; exact absurd h (by simp)
      | ok ws =>
        rw [hc] at h
        simp only [Except.ok.injEq] at h
        subst h
        simp [ih hc]

/-- Coercion succeeds when no entry is non-numeric. -/
theorem coerce_ok_of_no_nonNum : ∀ {raw : List RawFeature},
    RawFeature.nonNum ∉ raw → ∃ vs, coerceFeatures raw = .ok vs := by
  intro raw
  induction raw with
  | nil => intro _; exact ⟨[], rfl⟩
  | cons r rs ih =>
    intro h
    have hr : r ≠ RawFeature.nonNum := fun he => h (he ▸ List.mem_cons_self r rs)
    have hrs : RawFeature.nonNum ∉ rs := fun hm => h (List.mem_cons_of_mem r hm)
    obtain ⟨vs, hvs⟩ := ih hrs
    cases r with
    | nonNum => exact absurd rfl hr
    | num v => exact ⟨v :: vs, by simp [coerceFeatures, coerceFloat, hvs]⟩

/-- Coercion fails when some entry is non-numeric. -/
theorem coerce_error_of_nonNum : ∀ {raw : List RawFeature},
    RawFeature.nonNum ∈ raw → ∃ e, coerceFeatures raw = .error e := by
  intro raw
  induction raw with
  | nil => intro h; exact absurd h (List.not_mem_nil _)
  | cons r rs ih =>
    intro h
    cases r with
    | nonNum => exact ⟨"value is not a valid float", by simp [coerceFeatures, coerceFloat]⟩
    | num v =>
      have hm : RawFeature.nonNum ∈ rs := by
        rcases List.mem_cons.mp h with h1 | h2
        · exact absurd h1.symm (by simp)
        · exact h2
      obtain ⟨e, he⟩ := ih hm
      exact ⟨e, by simp [coerceFeatures, coerceFloat, he]⟩

/-- A valid request parses to a 30-element float list. -/
theorem parse_ok_of_valid {raw : List RawFeature} (h : isValid30 raw = true) :
    ∃ vs, parseRequest raw = .ok vs ∧ vs.length = 30 := by
  simp only [isValid30, Bool.and_eq_true, beq_iff_eq, List.all_eq_true] at h
  have hno : RawFeature.nonNum ∉ raw := by
    intro hm
    have := h.2 _ hm
    simp [RawFeature.isFiniteNum] at this
  obtain ⟨vs, hvs⟩ := coerce_ok_of_no_nonNum hno
  have hlen : vs.length = 30 := (coerce_length hvs).trans h.1
  exact ⟨vs, by simp [parseRequest, hvs, validate_features, hlen], hlen⟩

/-- Coercion on a replicated finite value. -/
theorem coerce_replicate (n : ℕ) (v : FloatVal) :
    coerceFeatures (List.replicate n (.num v)) = .ok (List.replicate n v) := by
  induction n with
  | zero => rfl
  | succ k ih => simp [List.replicate_succ, coerceFeatures, coerceFloat, ih]

/-- The concrete valid request parses to the concrete float list. -/
theorem parse_raw30 : parseRequest raw30 = .ok feats30 := by
  simp [parseRequest, raw30, feats30, coerce_replicate, validate_features,
    coerceFeatures, coerceFloat]

/-- The NaN-bearing request also passes validation (length is 30 and no
entry is non-numeric; finiteness is never checked). -/
theorem parse_rawNaN : parseRequest rawNaN = .ok (.nan :: List.replicate 29 (.finite 0)) := by
  simp [parseRequest, rawNaN, coerceFeatures, coerceFloat, coerce_replicate, validate_features]

/-- Rounding to four decimals keeps a probability inside [0, 1]. -/
theorem round4_mem {q : ℚ} (h0 : 0 ≤ q) (h1 : q ≤ 1) :
    0 ≤ round4 q ∧ round4 q ≤ 1 := by
  have hlo : (0 : ℤ) ≤ round (q * 10000) := by
    rw [round_eq]
    exact Int.le_floor.mpr (by push_cast; linarith)
  have hhi : round (q * 10000) ≤ 10000 := by
    rw [round_eq]
    have : (⌊q * 10000 + 1 / 2⌋ : ℤ) < 10001 := Int.floor_lt.mpr (by push_cast; linarith)
    omega
  constructor
  · exact div_nonneg (by exact_mod_cast hlo) (by norm_num)
  · rw [round4, div_le_one (by norm_num)]
    exact_mod_cast hhi

/-- Concrete evaluation: round(1/3, 4) = 0.3333. -/
theorem round4_third : round4 (1 / 3) = 3333 / 10000 := by
  have : round ((1 / 3 : ℚ) * 10000) = 3333 := by
    rw [round_eq, Int.floor_eq_iff]
    constructor <;> norm_num
  rw [round4, this]
  norm_num

/-! ## C1 -/

/-- C1: for every API predict request that is a list of exactly 30 finite
floating-point values, the response is a success whose label lies in the set
of 0 and 1, whose probability_benign lies in [0, 1], and whose diagnosis
equals "malignant" iff the label is 0 and "benign" iff the label is 1. -/
theorem predict_valid_input_contract (ctx : ServiceCtx) (raw : List RawFeature)
    (m : Metrics) (h : isValid30 raw = true) :
    ∃ pred diag prob,
      (handlePredict ctx none raw m).response = Response.ok pred diag prob ∧
      (pred = 0 ∨ pred = 1) ∧ 0 ≤ prob ∧ prob ≤ 1 ∧
      (diag = "malignant" ↔ pred = 0) ∧ (diag = "benign" ↔ pred = 1) := by
  obtain ⟨vs, hvs, -⟩ := parse_ok_of_valid h
  refine ⟨ctx.clf.predictFn (ctx.scaler.transform vs),
    if ctx.clf.predictFn (ctx.scaler.transform vs) = 0 then "malignant" else "benign",
    round4 (ctx.clf.predictProbaFn (ctx.scaler.transform vs)), ?_, ?_, ?_, ?_, ?_, ?_⟩
  · simp [handlePredict, hvs, predictBody]
  · exact ctx.clf.predict_binary _
  · exact (round4_mem (ctx.clf.proba_mem _).1 (ctx.clf.proba_mem _).2).1
  · exact (round4_mem (ctx.clf.proba_mem _).1 (ctx.clf.proba_mem _).2).2
  · rcases ctx.clf.predict_binary (ctx.scaler.transform vs) with h0 | h1
    · simp [h0]
    · simp [h1]
  · rcases ctx.clf.predict_binary (ctx.scaler.transform vs) with h0 | h1
    · simp [h0]
    · simp [h1]

/-- C1 witness: the contract instantiated on a concrete context and the
all-zero 30-feature request. -/
theorem predict_valid_input_contract_instance :
    isValid30 raw30 = true ∧
    ∃ pred diag prob,
      (handlePredict ctx0 none raw30 initMetrics).response = Response.ok pred diag prob ∧
      (pred = 0 ∨ pred = 1) ∧ 0 ≤ prob ∧ prob ≤ 1 ∧
      (diag = "malignant" ↔ pred = 0) ∧ (diag = "benign" ↔ pred = 1) :=
  ⟨by decide, predict_valid_input_contract ctx0 raw30 initMetrics (by decide)⟩

/-! ## C2 -/

/-- C2 counterexample: a 30-element numeric request with one NaN entry does
not decompose into 30 finite values, yet it is not rejected — no client
error is returned and the model is invoked. -/
theorem nonfinite_input_reaches_model :
    isValid30 rawNaN = false ∧
    (handlePredict ctx0 none rawNaN initMetrics).modelCalled = true ∧
    ∀ msg, (handlePredict ctx0 none rawNaN initMetrics).response ≠
      Response.clientError msg := by
  refine ⟨by decide, by decide, ?_⟩
  intro msg
  simp [handlePredict, parse_rawNaN, predictBody]

/-- C2 amended: a raw input whose features list has the wrong length or a
non-numeric entry is rejected with a structured client error and the model
is never invoked; non-finite numeric entries, however, pass validation. -/
theorem invalid_shape_rejected_before_model (ctx : ServiceCtx) (fault : Option Fault)
    (raw : List RawFeature) (m : Metrics)
    (h : raw.length ≠ 30 ∨ RawFeature.nonNum ∈ raw) :
    (∃ msg, (handlePredict ctx fault raw m).response = Response.clientError msg) ∧
    (handlePredict ctx fault raw m).modelCalled = false := by
  by_cases hn : RawFeature.nonNum ∈ raw
  · obtain ⟨e, he⟩ := coerce_error_of_nonNum hn
    exact ⟨⟨e, by simp [handlePredict, parseRequest, he]⟩,
      by simp [handlePredict, parseRequest, he]⟩
  · have hlen : raw.length ≠ 30 := h.resolve_right hn
    obtain ⟨vs, hvs⟩ := coerce_ok_of_no_nonNum hn
    have hv : vs.length ≠ 30 := by rw [coerce_length hvs]; exact hlen
    exact ⟨⟨"Exactly 30 features are required",
        by simp [handlePredict, parseRequest, hvs, validate_features, hv]⟩,
      by simp [handlePredict, parseRequest, hvs, validate_features, hv]⟩

/-- C2 witness: the amended rejection applied to the 29-element request. -/
theorem invalid_shape_rejected_before_model_instance :
    (raw29.length ≠ 30 ∨ RawFeature.nonNum ∈ raw29) ∧
    ((∃ msg, (handlePredict ctx0 none raw29 initMetrics).response =
        Response.clientError msg) ∧
      (handlePredict ctx0 none raw29 initMetrics).modelCalled = false) :=
  ⟨Or.inl (by decide),
    invalid_shape_rejected_before_model ctx0 none raw29 initMetrics (Or.inl (by decide))⟩

/-! ## C3 -/

/-- C3: if any artifact file is missing or fails to deserialize, startup
reports a descriptive fatal error and the process never reaches a serving
state. -/
theorem startup_aborts_on_bad_artifacts (d : ArtifactDisk)
    (h : d.modelFile.isBad = true ∨ d.scalerFile.isBad = true ∨
      d.featuresFile.isBad = true) :
    (∃ msg, startService d = Except.error msg) ∧
    ∀ svc, startService d ≠ Except.ok svc := by
  obtain ⟨mf, sf, ff⟩ := d
  cases mf <;> cases sf <;> cases ff <;>
    simp_all [startService, joblibLoad, LoadResult.isBad]

/-- C3 witness: startup on a disk with a missing model file. -/
theorem startup_aborts_on_bad_artifacts_instance :
    (diskMissingModel.modelFile.isBad = true ∨
      diskMissingModel.scalerFile.isBad = true ∨
      diskMissingModel.featuresFile.isBad = true) ∧
    ((∃ msg, startService diskMissingModel = Except.error msg) ∧
      ∀ svc, startService diskMissingModel ≠ Except.ok svc) :=
  ⟨Or.inl rfl, startup_aborts_on_bad_artifacts diskMissingModel (Or.inl rfl)⟩

/-! ## C4 -/

/-- C4: the training pipeline's artifact save either updates all three
files or reports failure, and a partial write (a disk state that is neither
the old bundle nor the fully-new bundle) is always accompanied by a reported
failure — never silently left in place. -/
theorem save_all_or_reported (f : DumpFaults) (bundle d : SavedBundle) :
    ((saveArtifacts f bundle d).1 = bundle ∨ (saveArtifacts f bundle d).2 = true) ∧
    ((saveArtifacts f bundle d).1 ≠ d ∧ (saveArtifacts f bundle d).1 ≠ bundle →
      (saveArtifacts f bundle d).2 = true) := by
  obtain ⟨a, b, c⟩ := f
  cases a <;> cases b <;> cases c <;> simp [saveArtifacts]

/-- C4 witness: a run whose second dump fails leaves a partial bundle and
does report failure. -/
theorem save_all_or_reported_instance :
    ((saveArtifacts ⟨true, false, true⟩ ⟨1, 1, 1⟩ ⟨0, 0, 0⟩).1 = ⟨1, 1, 1⟩ ∨
      (saveArtifacts ⟨true, false, true⟩ ⟨1, 1, 1⟩ ⟨0, 0, 0⟩).2 = true) ∧
    (saveArtifacts ⟨true, false, true⟩ ⟨1, 1, 1⟩ ⟨0, 0, 0⟩).2 = true :=
  ⟨(save_all_or_reported ⟨true, false, true⟩ ⟨1, 1, 1⟩ ⟨0, 0, 0⟩).1,
    (save_all_or_reported ⟨true, false, true⟩ ⟨1, 1, 1⟩ ⟨0, 0, 0⟩).2 (by decide)⟩

/-! ## C5 -/

/-- C5 counterexample: on the same artifacts and the same valid input, the
API responds with diagnosis "malignant" and the probability rounded to four
decimals, while the Flask form renders "Malignant" and the unrounded
probability — so the response probability differs and the
label-to-diagnosis-string mapping is not preserved exactly. -/
theorem flask_api_response_mismatch :
    (handlePredict ctxMal none raw30 initMetrics).response =
      Response.ok 0 "malignant" (round4 (1 / 3)) ∧
    (flaskPredict ctxMal feats30).diagnosis = "Malignant" ∧
    (flaskPredict ctxMal feats30).probability_benign = 1 / 3 ∧
    "Malignant" ≠ "malignant" ∧
    round4 (1 / 3) ≠ 1 / 3 := by
  refine ⟨?_, by decide, ?_, by decide, ?_⟩
  · simp [handlePredict, parse_raw30, predictBody, ctxMal, malignantModel]
  · simp [flaskPredict, ctxMal, malignantModel]
  · rw [round4_third]; norm_num

/-- C5 amended: on every validated input the form front-end computes the
same prediction label as the API's predict operation and the same underlying
benign probability; the API response carries that probability rounded to
four decimals while the form renders it unrounded, and the diagnosis strings
follow the same label mapping but differ in capitalization (API lowercase,
form capitalized). -/
theorem flask_api_same_label_same_probability (ctx : ServiceCtx) (raw : List RawFeature)
    (vs : List FloatVal) (m : Metrics) (h : parseRequest raw = .ok vs) :
    (handlePredict ctx none raw m).response =
      Response.ok (flaskPredict ctx vs).prediction
        (if (flaskPredict ctx vs).prediction = 0 then "malignant" else "benign")
        (round4 (flaskPredict ctx vs).probability_benign) ∧
    (flaskPredict ctx vs).diagnosis =
      (if (flaskPredict ctx vs).prediction = 0 then "Malignant" else "Benign") := by
  constructor
  · simp [handlePredict, h, predictBody, flaskPredict]
  · simp [flaskPredict]

/-- C5 witness: the amended agreement instantiated on a concrete context
and the all-zero request. -/
theorem flask_api_same_label_same_probability_instance :
    parseRequest raw30 = .ok feats30 ∧
    ((handlePredict ctx0 none raw30 initMetrics).response =
      Response.ok (flaskPredict ctx0 feats30).prediction
        (if (flaskPredict ctx0 feats30).prediction = 0 then "malignant" else "benign")
        (round4 (flaskPredict ctx0 feats30).probability_benign) ∧
    (flaskPredict ctx0 feats30).diagnosis =
      (if (flaskPredict ctx0 feats30).prediction = 0 then "Malignant" else "Benign")) :=
  ⟨parse_raw30,
    flask_api_same_label_same_probability ctx0 raw30 feats30 initMetrics parse_raw30⟩

/-! ## C6 -/

/-- One successful predict call adds one to the request counter at the
predict endpoint and one to the prediction-outcome counters summed over the
two labels. -/
theorem predictBody_success_counts (ctx : ServiceCtx) (vs : List FloatVal) (m : Metrics) :
    (predictBody ctx none vs m).metrics.app_requests_total "/predict" "POST" =
      m.app_requests_total "/predict" "POST" + 1 ∧
    (predictBody ctx none vs m).metrics.app_predictions_total "malignant" +
        (predictBody ctx none vs m).metrics.app_predictions_total "benign" =
      m.app_predictions_total "malignant" + m.app_predictions_total "benign" + 1 := by
  rcases ctx.clf.predict_binary (ctx.scaler.transform vs) with h0 | h1
  · constructor
    · simp [predictBody, h0, Metrics.incRequest, Metrics.incPrediction,
        Metrics.observeLatency]
    · simp [predictBody, h0, Metrics.incRequest, Metrics.incPrediction,
        Metrics.observeLatency]
      omega
  · constructor
    · simp [predictBody, h1, Metrics.incRequest, Metrics.incPrediction,
        Metrics.observeLatency]
    · simp [predictBody, h1, Metrics.incRequest, Metrics.incPrediction,
        Metrics.observeLatency]
      omega

/-- After a run of successful predict calls the two counters have grown by
the number of calls. -/
theorem runPredicts_counts (ctx : ServiceCtx) (reqs : List (List RawFeature)) :
    ∀ m : Metrics, (∀ r ∈ reqs, isValid30 r = true) →
    (runPredicts ctx reqs m).app_predictions_total "malignant" +
        (runPredicts ctx reqs m).app_predictions_total "benign" =
      m.app_predictions_total "malignant" + m.app_predictions_total "benign" +
        reqs.length ∧
    (runPredicts ctx reqs m).app_requests_total "/predict" "POST" =
      m.app_requests_total "/predict" "POST" + reqs.length := by
  induction reqs with
  | nil => intro m _; simp [runPredicts]
  | cons r rs ih =>
    intro m h
    have hr := h r (List.mem_cons_self r rs)
    obtain ⟨vs, hvs, -⟩ := parse_ok_of_valid hr
    have hrs : ∀ q ∈ rs, isValid30 q = true := fun q hq => h q (List.mem_cons_of_mem r hq)
    have hstep := predictBody_success_counts ctx vs m
    have hrun := ih ((handlePredict ctx none r m).metrics) hrs
    have hm : (handlePredict ctx none r m).metrics = (predictBody ctx none vs m).metrics := by
      simp [handlePredict, hvs]
    rw [hm] at hrun
    simp only [runPredicts]
    rw [hm, hrun.1, hrun.2, hstep.1, hstep.2]
    refine ⟨?_, ?_⟩ <;> simp only [List.length_cons] <;> omega

/-- C6: starting from fresh metrics, after N successful calls to the predict
endpoint the prediction-outcome counter summed over both labels equals N and
the request counter for the predict endpoint equals N. -/
theorem metrics_after_successful_predicts (ctx : ServiceCtx)
    (reqs : List (List RawFeature)) (h : ∀ r ∈ reqs, isValid30 r = true) :
    (runPredicts ctx reqs initMetrics).app_predictions_total "malignant" +
        (runPredicts ctx reqs initMetrics).app_predictions_total "benign" =
      reqs.length ∧
    (runPredicts ctx reqs initMetrics).app_requests_total "/predict" "POST" =
      reqs.length := by
  have := runPredicts_counts ctx reqs initMetrics h
  simpa [initMetrics] using this

/-- C6 witness: two successful calls leave both counters at two. -/
theorem metrics_after_successful_predicts_instance :
    (runPredicts ctx0 [raw30, raw30] initMetrics).app_predictions_total "malignant" +
        (runPredicts ctx0 [raw30, raw30] initMetrics).app_predictions_total "benign" = 2 ∧
    (runPredicts ctx0 [raw30, raw30] initMetrics).app_requests_total "/predict" "POST" = 2 := by
  have := metrics_after_successful_predicts ctx0 [raw30, raw30] (by decide)
  simpa using this

/-! ## C7 -/

/-- The 29-element request fails validation with the length error. -/
theorem parse_raw29 : parseRequest raw29 = .error "Exactly 30 features are required" := by
  have h : coerceFeatures raw29 = .ok (List.replicate 29 (.finite 0)) := coerce_replicate 29 _
  simp only [parseRequest, h, validate_features]
  simp

/-- C7 counterexample: on a request with 29 values the response is a client
error, but the request counter for the predict endpoint is not incremented
(the framework rejects the body before the handler, whose first line does
the increment, ever runs) — the counter stays at zero. -/
theorem request_counter_not_incremented_on_29 :
    (handlePredict ctx0 none raw29 initMetrics).response =
      Response.clientError "Exactly 30 features are required" ∧
    (handlePredict ctx0 none raw29 initMetrics).metrics.app_requests_total
      "/predict" "POST" = 0 ∧
    (handlePredict ctx0 none raw29 initMetrics).metrics.app_predictions_total
      "malignant" = 0 ∧
    (handlePredict ctx0 none raw29 initMetrics).metrics.app_predictions_total
      "benign" = 0 := by
  refine ⟨?_, by decide, by decide, by decide⟩
  simp [handlePredict, parse_raw29]

/-- C7 amended: a request whose features list has 29 values produces a
structured client error and leaves the metric state entirely unchanged — no
prediction-counter increment, and no request-counter increment either. -/
theorem invalid_length_no_metric_changes (ctx : ServiceCtx) (fault : Option Fault)
    (raw : List RawFeature) (m : Metrics) (h : raw.length = 29) :
    (∃ msg, (handlePredict ctx fault raw m).response = Response.clientError msg) ∧
    (handlePredict ctx fault raw m).metrics = m := by
  cases hc : coerceFeatures raw with
  | error e =>
    exact ⟨⟨e, by simp [handlePredict, parseRequest, hc]⟩,
      by simp [handlePredict, parseRequest, hc]⟩
  | ok vs =>
    have hv : vs.length ≠ 30 := by rw [coerce_length hc, h]; omega
    exact ⟨⟨"Exactly 30 features are required",
        by simp [handlePredict, parseRequest, hc, validate_features, hv]⟩,
      by simp [handlePredict, parseRequest, hc, validate_features, hv]⟩

/-- C7 witness: the amended statement on the concrete 29-element request. -/
theorem invalid_length_no_metric_changes_instance :
    raw29.length = 29 ∧
    ((∃ msg, (handlePredict ctx0 none raw29 initMetrics).response =
        Response.clientError msg) ∧
      (handlePredict ctx0 none raw29 initMetrics).metrics = initMetrics) :=
  ⟨by decide, invalid_length_no_metric_changes ctx0 none raw29 initMetrics (by decide)⟩

/-! ## C9 -/

/-- The transform of replicated parameters over a replicated input. -/
theorem transform_replicate (n : ℕ) (m s : ℚ) (x : FloatVal) :
    ScalerParams.transform ⟨List.replicate n m, List.replicate n s⟩ (List.replicate n x) =
      List.replicate n (scaleVal x m s) := by
  induction n with
  | zero => rfl
  | succ k ih =>
    simp only [List.replicate_succ, ScalerParams.transform, List.zip_cons_cons,
      List.zipWith_cons_cons] at ih ⊢
    rw [ih]

/-- C9 counterexample: with a loaded scaler of mean 1 and scale 1, applying
the transform twice to a 30-element input yields a different output than
applying it once — the transform is not idempotent. -/
theorem transform_not_idempotent :
    scalerShift.transform (scalerShift.transform feats30) ≠
      scalerShift.transform feats30 := by
  have h1 : scalerShift.transform feats30 = List.replicate 30 (FloatVal.finite (-1)) := by
    rw [show feats30 = List.replicate 30 (FloatVal.finite 0) from rfl,
      show scalerShift = ⟨List.replicate 30 1, List.replicate 30 1⟩ from rfl,
      transform_replicate]
    norm_num [scaleVal]
  have h2 : scalerShift.transform (List.replicate 30 (FloatVal.finite (-1))) =
      List.replicate 30 (FloatVal.finite (-2)) := by
    rw [show scalerShift = ⟨List.replicate 30 1, List.replicate 30 1⟩ from rfl,
      transform_replicate]
    norm_num [scaleVal]
  rw [h1, h2]
  intro h
  have hmem : FloatVal.finite (-2) ∈ List.replicate 30 (FloatVal.finite (-2)) :=
    List.mem_replicate.mpr ⟨by norm_num, rfl⟩
  have hm := List.mem_replicate.mp (h ▸ hmem)
  injection hm.2 with h'
  norm_num at h'

/-- C9 amended: applying the loaded ScalingTransform (and the whole predict
computation) to the same input is deterministic — the response is a pure
function of the loaded artifacts, the injected fault, and the input, and in
particular does not depend on the accumulated metric state; idempotence of
the transform, however, does not hold. -/
theorem response_independent_of_metrics (ctx : ServiceCtx) (fault : Option Fault)
    (raw : List RawFeature) (m1 m2 : Metrics) :
    (handlePredict ctx fault raw m1).response =
      (handlePredict ctx fault raw m2).response := by
  cases hp : parseRequest raw with
  | error e => simp [handlePredict, hp]
  | ok vs =>
    rcases fault with - | f
    · simp [handlePredict, hp, predictBody]
    · cases f <;> simp [handlePredict, hp, predictBody]

/-! ## C10 -/

/-- C10 counterexample: a request that fails during inference returns a
server error, yet the latency histogram records one observation (the timed
block's exit runs on the exception path), so the histogram does not remain
unchanged. -/
theorem latency_recorded_on_inference_failure :
    (handlePredict ctx0 (some Fault.inference) raw30 initMetrics).response =
      Response.serverError "Prediction error: inference failed" ∧
    (handlePredict ctx0 (some Fault.inference) raw30
      initMetrics).metrics.latency_observations = 1 :=
  ⟨by decide, by decide⟩

/-- C10 amended: a valid request that fails during scaling or inference
returns a server error, increments the request counter for the predict
endpoint, and leaves the prediction-outcome counter unchanged; the latency
histogram is unchanged when the failure is during scaling, but records one
observation when the failure is inside the timed inference block. -/
theorem failure_metrics_frame (ctx : ServiceCtx) (st : Fault) (raw : List RawFeature)
    (m : Metrics) (h : isValid30 raw = true) :
    (∃ msg, (handlePredict ctx (some st) raw m).response = Response.serverError msg) ∧
    (handlePredict ctx (some st) raw m).metrics.app_requests_total "/predict" "POST" =
      m.app_requests_total "/predict" "POST" + 1 ∧
    (∀ lab, (handlePredict ctx (some st) raw m).metrics.app_predictions_total lab =
      m.app_predictions_total lab) ∧
    (handlePredict ctx (some st) raw m).metrics.latency_observations =
      m.latency_observations + (if st = Fault.scaling then 0 else 1) := by
  obtain ⟨vs, hvs, -⟩ := parse_ok_of_valid h
  cases st
  · refine ⟨⟨"Prediction error: scaling failed", ?_⟩, ?_, ?_, ?_⟩ <;>
      simp [handlePredict, hvs, predictBody, Metrics.incRequest, Metrics.observeLatency]
  · refine ⟨⟨"Prediction error: inference failed", ?_⟩, ?_, ?_, ?_⟩ <;>
      simp [handlePredict, hvs, predictBody, Metrics.incRequest, Metrics.observeLatency]

/-- C10 witness: the failure frame instantiated on a concrete context, a
scaling failure, and the all-zero valid request. -/
theorem failure_metrics_frame_instance :
    isValid30 raw30 = true ∧
    ((∃ msg, (handlePredict ctx0 (some Fault.scaling) raw30 initMetrics).response =
        Response.serverError msg) ∧
      (handlePredict ctx0 (some Fault.scaling) raw30
          initMetrics).metrics.app_requests_total "/predict" "POST" =
        initMetrics.app_requests_total "/predict" "POST" + 1 ∧
      (∀ lab, (handlePredict ctx0 (some Fault.scaling) raw30
          initMetrics).metrics.app_predictions_total lab =
        initMetrics.app_predictions_total lab) ∧
      (handlePredict ctx0 (some Fault.scaling) raw30
          initMetrics).metrics.latency_observations =
        initMetrics.latency_observations +
          (if Fault.scaling = Fault.scaling then 0 else 1)) :=
  ⟨by decide, failure_metrics_frame ctx0 Fault.scaling raw30 initMetrics (by decide)⟩

/-! ## C8 -/

/-- Class counts add over list concatenation. -/
theorem countClass_append (c : ℕ) (l1 l2 : List Sample) :
    countClass c (l1 ++ l2) = countClass c l1 + countClass c l2 := by
  simp [countClass, rowsOfClass, List.filter_append]

/-- A list all of whose samples carry label c has class-c count equal to its
length. -/
theorem countClass_of_all_eq {c : ℕ} {l : List Sample} (h : ∀ a ∈ l, a.2 = c) :
    countClass c l = l.length := by
  unfold countClass rowsOfClass
  rw [List.filter_eq_self.mpr]
  intro a ha
  simpa using h a ha

/-- A list none of whose samples carries label c has class-c count zero. -/
theorem countClass_of_all_ne {c : ℕ} {l : List Sample} (h : ∀ a ∈ l, a.2 ≠ c) :
    countClass c l = 0 := by
  unfold countClass rowsOfClass
  rw [List.filter_eq_nil_iff.mpr]
  · rfl
  · intro a ha
    simpa using h a ha

/-- Members of a class bucket carry that class's label. -/
theorem mem_rowsOfClass {a : Sample} {c : ℕ} {rows : List Sample}
    (h : a ∈ rowsOfClass c rows) : a.2 = c := by
  simpa using (List.mem_filter.mp h).2

/-- Class-c count of a prefix of the class-c bucket. -/
theorem countClass_take_self (c : ℕ) (rows : List Sample) (n : ℕ) :
    countClass c ((rowsOfClass c rows).take n) = min n (countClass c rows) := by
  rw [countClass_of_all_eq fun a ha => mem_rowsOfClass (List.take_subset n _ ha)]
  exact List.length_take n _

/-- Class-c count of a suffix of the class-c bucket. -/
theorem countClass_drop_self (c : ℕ) (rows : List Sample) (n : ℕ) :
    countClass c ((rowsOfClass c rows).drop n) = countClass c rows - n := by
  rw [countClass_of_all_eq fun a ha => mem_rowsOfClass (List.drop_subset n _ ha)]
  exact List.length_drop n _

/-- A prefix of another class's bucket contributes nothing to class c. -/
theorem countClass_take_ne {c c' : ℕ} (h : c ≠ c') (rows : List Sample) (n : ℕ) :
    countClass c ((rowsOfClass c' rows).take n) = 0 :=
  countClass_of_all_ne fun a ha => by
    rw [mem_rowsOfClass (List.take_subset n _ ha)]
    exact h.symm

/-- A suffix of another class's bucket contributes nothing to class c. -/
theorem countClass_drop_ne {c c' : ℕ} (h : c ≠ c') (rows : List Sample) (n : ℕ) :
    countClass c ((rowsOfClass c' rows).drop n) = 0 :=
  countClass_of_all_ne fun a ha => by
    rw [mem_rowsOfClass (List.drop_subset n _ ha)]
    exact h.symm

/-- Per-class counts of the stratified split's partitions, over any
duplicate-free class list. -/
theorem splitClasses_counts (k : ℚ) (rows : List Sample) (c : ℕ) :
    ∀ cs : List ℕ, cs.Nodup →
      countClass c (splitClasses k rows cs).1 =
        (if c ∈ cs then countClass c rows - ⌈k * countClass c rows⌉₊ else 0) ∧
      countClass c (splitClasses k rows cs).2 =
        (if c ∈ cs then min ⌈k * countClass c rows⌉₊ (countClass c rows) else 0) := by
  intro cs
  induction cs with
  | nil =>
    intro _
    simp [splitClasses, countClass, rowsOfClass]
  | cons c' cs ih =>
    intro hnd
    obtain ⟨hni, hnd'⟩ := List.nodup_cons.mp hnd
    obtain ⟨ih1, ih2⟩ := ih hnd'
    by_cases hc : c = c'
    · subst hc
      simp only [splitClasses, countClass_append, ih1, ih2, if_neg hni,
        List.mem_cons, true_or, if_pos]
      rw [countClass_drop_self, countClass_take_self,
        show (rowsOfClass c rows).length = countClass c rows from rfl]
      exact ⟨by omega, by omega⟩
    · simp only [splitClasses, countClass_append, ih1, ih2,
        countClass_take_ne hc, countClass_drop_ne hc, List.mem_cons]
      by_cases hm : c ∈ cs <;> simp [hm, hc]

/-- C8: the training pipeline's stratified 80/20 split preserves per-class
totals and sends exactly the ceiling of one fifth of each class to the test
partition, and the fitted scaler statistics are a function of the train
partition alone — the test partition never influences them. -/
theorem split_ratio_and_scaler_from_train :
    (∀ (rows : List Sample) (c : ℕ),
      countClass c (train_test_split (1 / 5) rows).2 =
        ⌈(1 / 5 : ℚ) * countClass c rows⌉₊ ∧
      countClass c (train_test_split (1 / 5) rows).1 +
        countClass c (train_test_split (1 / 5) rows).2 = countClass c rows) ∧
    (∀ (rows1 rows2 : List Sample) (names1 names2 : List String),
      (train_test_split (1 / 5) rows1).1 = (train_test_split (1 / 5) rows2).1 →
      (trainPipeline rows1 names1).scalerMean = (trainPipeline rows2 names2).scalerMean ∧
      (trainPipeline rows1 names1).scalerVar = (trainPipeline rows2 names2).scalerVar) := by
  constructor
  · intro rows c
    have h := splitClasses_counts (1 / 5) rows c ((rows.map Prod.snd).dedup)
      (List.nodup_dedup _)
    have hceil : ⌈(1 / 5 : ℚ) * countClass c rows⌉₊ ≤ countClass c rows := by
      rw [Nat.ceil_le]
      have h0 : (0 : ℚ) ≤ (countClass c rows : ℚ) := Nat.cast_nonneg _
      linarith
    by_cases hm : c ∈ (rows.map Prod.snd).dedup
    · rw [train_test_split] at *
      rw [h.1, h.2, if_pos hm, if_pos hm]
      refine ⟨min_eq_left hceil, ?_⟩
      rw [min_eq_left hceil]
      omega
    · have hz : countClass c rows = 0 := by
        apply countClass_of_all_ne
        intro a ha hac
        exact hm (List.mem_dedup.mpr (List.mem_map.mpr ⟨a, ha, hac⟩))
      rw [train_test_split] at *
      rw [h.1, h.2, if_neg hm, if_neg hm, hz]
      simp
  · intro rows1 rows2 names1 names2 h
    constructor <;> simp only [trainPipeline] <;> rw [h]

/-- The split of a one-sample dataset of class 0: the sample is the test
partition and the train partition is empty. -/
theorem tts_singleton (x : List ℚ) :
    train_test_split (1 / 5) [(x, 0)] = ([], [(x, 0)]) := by
  have hceil : ⌈(1 / 5 : ℚ)⌉₊ = 1 := by
    rw [Nat.ceil_eq_iff one_ne_zero]
    norm_num
  simp [train_test_split, splitClasses, rowsOfClass, hceil]

/-- C8 witness: the split ratio on a concrete one-sample dataset, and
scaler-statistics agreement between two datasets with different test samples
but identical (empty) train partitions. -/
theorem split_ratio_and_scaler_from_train_instance :
    (countClass 0 (train_test_split (1 / 5) rowsA).2 =
        ⌈(1 / 5 : ℚ) * countClass 0 rowsA⌉₊ ∧
      countClass 0 (train_test_split (1 / 5) rowsA).1 +
        countClass 0 (train_test_split (1 / 5) rowsA).2 = countClass 0 rowsA) ∧
    ((trainPipeline rowsA []).scalerMean = (trainPipeline rowsB []).scalerMean ∧
      (trainPipeline rowsA []).scalerVar = (trainPipeline rowsB []).scalerVar) :=
  ⟨split_ratio_and_scaler_from_train.1 rowsA 0,
    split_ratio_and_scaler_from_train.2 rowsA rowsB [] []
      (by rw [show rowsA = [([3], 0)] from rfl, show rowsB = [([7], 0)] from rfl,
        tts_singleton, tts_singleton])⟩

end BC
